import Mathlib

/-!
Shallow embedding of server.js (senseiprod/renderApp): a mockup-rendering
HTTP service with three POST endpoints (generate, preview,
finalize-for-shopify).  JavaScript numbers are modelled as exact rationals,
JS Math.round as floor of x + 1/2 (which matches JS round-half-up semantics
on all inputs, negative ones included).  The sharp image pipeline is
modelled as a symbolic expression tree recording every operation, blend
mode and placement; the raster library behaviour that the code merely
observes (native asset dimensions, the dimensions sharp reports for the
aspect-preserving logo resize) is abstracted into a RenderEnv record of
parameters.  Cloudinary uploads are modelled by the public identifier the
code derives for each call and by per-call outcome parameters.
-/

/-- JS Math.round: round half away from zero for positives, and in fact
floor (x + 1/2) for every real argument, which is exactly what JS does. -/
def jsRound (q : ℚ) : ℤ := ⌊q + 1/2⌋

/-- Decoded multipart request as each handler sees it.  A parameter field
is none when it is absent or does not parse to a number (parseFloat and
parseInt then return NaN, which is falsy, exactly like an absent field on
the other side of the JS or-default). -/
structure RawRequest where
  hasFile : Bool
  originalname : String
  color : Option String
  logoX : Option ℚ
  logoY : Option ℚ
  logoWidth : Option ℤ

/-- JS s || d for a string valued field: the empty string is falsy. -/
def strOrDefault : Option String → String → String
  | none, d => d
  | some s, d => if s = "" then d else s

/-- JS x || d after parseFloat: NaN (modelled none) and 0 are falsy. -/
def ratOrDefault : Option ℚ → ℚ → ℚ
  | none, d => d
  | some x, d => if x = 0 then d else x

/-- JS x || d after parseInt: NaN (modelled none) and 0 are falsy. -/
def intOrDefault : Option ℤ → ℤ → ℤ
  | none, d => d
  | some x, d => if x = 0 then d else x

/-- const color = req.body.color || '#FFFFFF' -/
def reqColor (r : RawRequest) : String := strOrDefault r.color "#FFFFFF"

/-- const logoX = parseFloat(req.body.logoX) || 0 -/
def reqLogoX (r : RawRequest) : ℚ := ratOrDefault r.logoX 0

/-- const logoY = parseFloat(req.body.logoY) || 175 -/
def reqLogoY (r : RawRequest) : ℚ := ratOrDefault r.logoY 175

/-- const logoWidth = parseInt(req.body.logoWidth) || 450 -/
def reqLogoWidth (r : RawRequest) : ℤ := intOrDefault r.logoWidth 450

/-- The per-render config object built by each handler. -/
structure Config where
  finalImageWidth : ℤ
  logoWidth : ℤ
  logoXOffset : ℚ
  logoYOffset : ℚ

/-- generate and finalize-for-shopify config:
{ finalImageWidth: 2000, logoWidth, logoXOffset: logoX, logoYOffset: logoY }. -/
def generateConfig (r : RawRequest) : Config :=
  { finalImageWidth := 2000
    logoWidth := reqLogoWidth r
    logoXOffset := reqLogoX r
    logoYOffset := reqLogoY r }

/-- preview config: { finalImageWidth: 800, logoWidth: round(logoWidth*0.4),
logoXOffset: round(logoX*0.4), logoYOffset: round(logoY*0.4) }. -/
def previewConfig (r : RawRequest) : Config :=
  { finalImageWidth := 800
    logoWidth := jsRound ((reqLogoWidth r : ℚ) * (0.4 : ℚ))
    logoXOffset := (jsRound (reqLogoX r * (0.4 : ℚ)) : ℚ)
    logoYOffset := (jsRound (reqLogoY r * (0.4 : ℚ)) : ℚ) }

/-- Raster-library behaviour the handlers observe but do not compute:
native metadata of the deployment assets and of the uploaded logo, and the
dimensions sharp reports for the logo after its aspect-preserving resize
to a requested target width. -/
structure RenderEnv where
  assetNativeWidth : String → ℤ
  assetNativeHeight : String → ℤ
  logoNativeWidth : ℤ
  logoNativeHeight : ℤ
  resizedLogoWidth : ℤ → ℤ
  resizedLogoHeight : ℤ → ℤ

/-- Blend modes used by the pipeline (sharp names: over is the default). -/
inductive Blend where
  | over
  | destIn
  | multiply
  | screen

/-- Optional top and left placement of a composite overlay. -/
structure Placement where
  top : Option ℤ
  left : Option ℤ

/-- Overlay with no top and left option, as in the source for every layer
except the logo. -/
def unplaced : Placement := ⟨none, none⟩

/-- Symbolic sharp expression: each constructor is one pipeline operation
appearing in server.js. -/
inductive Img where
  | asset : String → Img
  | logoFile : Img
  | create : ℤ → ℤ → ℕ → String → Img
  | resize : Img → ℤ → ℤ → Img
  | resizeWidth : Img → ℤ → Img
  | thresholdNegate : Img → Img
  | composite : Img → List (Img × Blend × Placement) → Img

/-- Output pixel width of a sharp expression (composite keeps the base
dimensions, threshold and negate keep dimensions, resize sets them). -/
def Img.outWidth (env : RenderEnv) : Img → ℤ
  | .asset p => env.assetNativeWidth p
  | .logoFile => env.logoNativeWidth
  | .create w _ _ _ => w
  | .resize _ w _ => w
  | .resizeWidth _ w => env.resizedLogoWidth w
  | .thresholdNegate b => Img.outWidth env b
  | .composite b _ => Img.outWidth env b

/-- Output pixel height of a sharp expression. -/
def Img.outHeight (env : RenderEnv) : Img → ℤ
  | .asset p => env.assetNativeHeight p
  | .logoFile => env.logoNativeHeight
  | .create _ h _ _ => h
  | .resize _ _ h => h
  | .resizeWidth _ w => env.resizedLogoHeight w
  | .thresholdNegate b => Img.outHeight env b
  | .composite b _ => Img.outHeight env b

/-- finalImageHeight = Math.round(baseMetadata.height *
(config.finalImageWidth / baseMetadata.width)), with baseMetadata taken
from assets/background.png. -/
def finalImageHeightOf (env : RenderEnv) (finalImageWidth : ℤ) : ℤ :=
  jsRound ((env.assetNativeHeight "assets/background.png" : ℚ) *
    ((finalImageWidth : ℚ) / (env.assetNativeWidth "assets/background.png" : ℚ)))

/-- cleanBackgroundBuffer = sharp(backgroundAsset).resize(W, H). -/
def cleanBackgroundOf (env : RenderEnv) (cfg : Config) : Img :=
  Img.resize (Img.asset "assets/background.png") cfg.finalImageWidth
    (finalImageHeightOf env cfg.finalImageWidth)

/-- solidColorCanvas = sharp(create W x H, 4 channels, background color). -/
def solidColorCanvasOf (env : RenderEnv) (color : String) (cfg : Config) : Img :=
  Img.create cfg.finalImageWidth (finalImageHeightOf env cfg.finalImageWidth) 4 color

/-- bagBodyMask = sharp(bagBodyAsset).resize(W, H). -/
def bagBodyMaskOf (env : RenderEnv) (cfg : Config) : Img :=
  Img.resize (Img.asset "assets/bag-body-shape.png.png") cfg.finalImageWidth
    (finalImageHeightOf env cfg.finalImageWidth)

/-- coloredBagBody = sharp(solidColorCanvas).composite(bagBodyMask, dest-in). -/
def coloredBagBodyOf (env : RenderEnv) (color : String) (cfg : Config) : Img :=
  Img.composite (solidColorCanvasOf env color cfg)
    [(bagBodyMaskOf env cfg, Blend.destIn, unplaced)]

/-- handlesMask = sharp(handlesAsset).resize(W, H).threshold().negate(). -/
def handlesMaskOf (env : RenderEnv) (cfg : Config) : Img :=
  Img.thresholdNegate
    (Img.resize (Img.asset "assets/handles-shape.png.png") cfg.finalImageWidth
      (finalImageHeightOf env cfg.finalImageWidth))

/-- coloredHandles = sharp(solidColorCanvas).composite(handlesMask, dest-in). -/
def coloredHandlesOf (env : RenderEnv) (color : String) (cfg : Config) : Img :=
  Img.composite (solidColorCanvasOf env color cfg)
    [(handlesMaskOf env cfg, Blend.destIn, unplaced)]

/-- coloredFullBag = sharp(coloredBagBody).composite(coloredHandles), with
the default source-over blend. -/
def coloredFullBagOf (env : RenderEnv) (color : String) (cfg : Config) : Img :=
  Img.composite (coloredBagBodyOf env color cfg)
    [(coloredHandlesOf env color cfg, Blend.over, unplaced)]

/-- resizedLogo = sharp(logoBuffer).resize(width: config.logoWidth). -/
def resizedLogoOf (cfg : Config) : Img :=
  Img.resizeWidth Img.logoFile cfg.logoWidth

/-- shadow overlay = sharp(shadowsAsset).resize(W, H). -/
def shadowLayerOf (env : RenderEnv) (cfg : Config) : Img :=
  Img.resize (Img.asset "assets/tote-shadows.png.png") cfg.finalImageWidth
    (finalImageHeightOf env cfg.finalImageWidth)

/-- highlight overlay = sharp(highlightsAsset).resize(W, H). -/
def highlightLayerOf (env : RenderEnv) (cfg : Config) : Img :=
  Img.resize (Img.asset "assets/tote-highlights.png.png") cfg.finalImageWidth
    (finalImageHeightOf env cfg.finalImageWidth)

/-- logoTop = Math.round((finalImageHeight / 2) - (logoMetadata.height / 2)
+ config.logoYOffset). -/
def logoTopOf (env : RenderEnv) (cfg : Config) : ℤ :=
  jsRound ((finalImageHeightOf env cfg.finalImageWidth : ℚ) / 2 -
    (env.resizedLogoHeight cfg.logoWidth : ℚ) / 2 + cfg.logoYOffset)

/-- logoLeft = Math.round((config.finalImageWidth / 2) -
(logoMetadata.width / 2) + config.logoXOffset). -/
def logoLeftOf (env : RenderEnv) (cfg : Config) : ℤ :=
  jsRound ((cfg.finalImageWidth : ℚ) / 2 -
    (env.resizedLogoWidth cfg.logoWidth : ℚ) / 2 + cfg.logoXOffset)

/-- Encoded result of a render: the composed expression plus the encoding
parameters passed to toFormat and jpeg. -/
structure RenderOutput where
  image : Img
  format : String
  quality : ℕ

/-- The shared compositing pipeline body of all three handlers: the final
flatten over the clean background, in source order, then JPEG encoding. -/
def composePipeline (env : RenderEnv) (color : String) (cfg : Config)
    (quality : ℕ) : RenderOutput :=
  { image := Img.composite (cleanBackgroundOf env cfg)
      [ (coloredFullBagOf env color cfg, Blend.over, unplaced),
        (resizedLogoOf cfg, Blend.over,
          ⟨some (logoTopOf env cfg), some (logoLeftOf env cfg)⟩),
        (shadowLayerOf env cfg, Blend.multiply, unplaced),
        (highlightLayerOf env cfg, Blend.screen, unplaced) ]
    format := "jpeg"
    quality := quality }

/-- HTTP responses the handlers can produce.  jsonUrls carries mockupUrl,
originalLogoUrl and the echoed config fields color, logoX, logoY,
logoWidth. -/
inductive HttpResponse where
  | badRequest : String → HttpResponse
  | imageJpeg : RenderOutput → HttpResponse
  | jsonUrls : String → String → String → ℚ → ℚ → ℤ → HttpResponse
  | serverError : String → HttpResponse

/-- HTTP status code of each response shape. -/
def HttpResponse.status : HttpResponse → ℕ
  | .badRequest _ => 400
  | .imageJpeg _ => 200
  | .jsonUrls _ _ _ _ _ _ => 200
  | .serverError _ => 500

/-- One Cloudinary upload call: the Date.now() millisecond value observed
by the call and the suggested file name passed to uploadToCloudinary. -/
structure UploadCall where
  atMillis : ℕ
  suggestedName : String

/-- List of characters of the last path component (after the last slash),
as node path.parse computes the base. -/
def afterLastSlash (l : List Char) : List Char :=
  l.foldl (fun acc c => if c = '/' then [] else acc ++ [c]) []

/-- Index of the last dot of the base name, if any. -/
def lastDotIdx (l : List Char) : Option ℕ :=
  ((List.range l.length).filter (fun i => l.getD i ' ' = '.')).getLast?

/-- node path.parse(filename).name: the base name without its extension;
a dot at position zero does not start an extension. -/
def nodeParseName (filename : String) : String :=
  let base := afterLastSlash filename.data
  match lastDotIdx base with
  | none => ⟨base⟩
  | some 0 => ⟨base⟩
  | some (i + 1) => ⟨base.take (i + 1)⟩

/-- The Cloudinary folder option: every upload goes to the fixed
tote-bag-designs namespace. -/
def uploadFolder : String := "tote-bag-designs"

/-- public_id of an upload call, from the source template literal: the
Date.now() value, a hyphen, and path.parse(filename).name. -/
def storageId (c : UploadCall) : String :=
  Nat.repr c.atMillis ++ "-" ++ nodeParseName c.suggestedName

/-- What one endpoint invocation did: the response sent, the public ids of
the Cloudinary upload calls started, the public ids of the uploads that
completed in the store (the handler has no rollback code, so a completed
upload stays completed whatever else fails), and how many sharp pipeline
invocations ran. -/
structure EndpointResult where
  response : HttpResponse
  uploadsAttempted : List String
  uploadsCompleted : List String
  rasterEngineCalls : ℕ
  mockupRendered : Option RenderOutput

/-- POST /generate handler.  The no-file guard answers 400 before any
sharp or upload work; otherwise the handler runs the full pipeline (13
sharp invocations) and sends the JPEG at quality 95. -/
def generateEndpoint (env : RenderEnv) (r : RawRequest) : EndpointResult :=
  if r.hasFile = false then
    { response := HttpResponse.badRequest "No logo file was uploaded."
      uploadsAttempted := []
      uploadsCompleted := []
      rasterEngineCalls := 0
      mockupRendered := none }
  else
    let out := composePipeline env (reqColor r) (generateConfig r) 95
    { response := HttpResponse.imageJpeg out
      uploadsAttempted := []
      uploadsCompleted := []
      rasterEngineCalls := 13
      mockupRendered := some out }

/-- POST /preview handler: same pipeline with the preview config and JPEG
quality 70. -/
def previewEndpoint (env : RenderEnv) (r : RawRequest) : EndpointResult :=
  if r.hasFile = false then
    { response := HttpResponse.badRequest "No logo file was uploaded."
      uploadsAttempted := []
      uploadsCompleted := []
      rasterEngineCalls := 0
      mockupRendered := none }
  else
    let out := composePipeline env (reqColor r) (previewConfig r) 70
    { response := HttpResponse.imageJpeg out
      uploadsAttempted := []
      uploadsCompleted := []
      rasterEngineCalls := 13
      mockupRendered := some out }

/-- Run-dependent behaviour of one finalize-for-shopify invocation:
whether the compositing step succeeds (an asset or decode failure throws
before any upload), how many sharp invocations had run when it failed, the
Date.now() value each upload call observes, and each upload outcome (ok
secure_url or error cause). -/
structure PublishEnv where
  renderOk : Bool
  rasterCallsAtFailure : ℕ
  mockupMillis : ℕ
  logoMillis : ℕ
  mockupOutcome : Except String String
  logoOutcome : Except String String

/-- POST /finalize-for-shopify handler: guard, the generate pipeline at
width 2000 and quality 95, then Promise.all of two uploadToCloudinary
calls (mockup.jpg and the original logo file name); on joint success it
answers with both URLs and the echoed defaulted config, and any thrown
error is caught into a 500 answer. -/
def finalizeForShopify (env : RenderEnv) (p : PublishEnv) (r : RawRequest) :
    EndpointResult :=
  if r.hasFile = false then
    { response := HttpResponse.badRequest "No logo file was uploaded."
      uploadsAttempted := []
      uploadsCompleted := []
      rasterEngineCalls := 0
      mockupRendered := none }
  else if p.renderOk = false then
    { response := HttpResponse.serverError
        "An error occurred while preparing your design for the cart."
      uploadsAttempted := []
      uploadsCompleted := []
      rasterEngineCalls := p.rasterCallsAtFailure
      mockupRendered := none }
  else
    let out := composePipeline env (reqColor r) (generateConfig r) 95
    let mockupCall : UploadCall := ⟨p.mockupMillis, "mockup.jpg"⟩
    let logoCall : UploadCall := ⟨p.logoMillis, r.originalname⟩
    let completed :=
      (match p.mockupOutcome with
        | Except.ok _ => [storageId mockupCall]
        | Except.error _ => []) ++
      (match p.logoOutcome with
        | Except.ok _ => [storageId logoCall]
        | Except.error _ => [])
    match p.mockupOutcome, p.logoOutcome with
    | Except.ok mockupUrl, Except.ok originalLogoUrl =>
      { response := HttpResponse.jsonUrls mockupUrl originalLogoUrl
          (reqColor r) (reqLogoX r) (reqLogoY r) (reqLogoWidth r)
        uploadsAttempted := [storageId mockupCall, storageId logoCall]
        uploadsCompleted := completed
        rasterEngineCalls := 13
        mockupRendered := some out }
    | _, _ =>
      { response := HttpResponse.serverError
          "An error occurred while preparing your design for the cart."
        uploadsAttempted := [storageId mockupCall, storageId logoCall]
        uploadsCompleted := completed
        rasterEngineCalls := 13
        mockupRendered := some out }

/-- Example request families and concrete inputs used by counterexamples. -/
def centeredReq (f : String) (c : Option String) (w : Option ℤ) : RawRequest :=
  ⟨true, f, c, some 0, some 0, w⟩

/-- Concrete environment: a 2000 x 2000 background, logo resized dims
reported as requested width and height 300. -/
def envA : RenderEnv :=
  ⟨fun _ => 2000, fun _ => 2000, 600, 400, fun w => w, fun _ => 300⟩

/-- Concrete environment whose background has native size 2000 x 1001, so
the full-tier canvas height 1001 is odd relative to the logo height. -/
def envB : RenderEnv :=
  ⟨fun _ => 2000, fun _ => 1001, 600, 400, fun w => w, fun _ => 300⟩

/-- Request supplying logoX=0 and logoY=0 with everything else absent. -/
def reqCentered : RawRequest := ⟨true, "logo.png", none, some 0, some 0, none⟩

/-- Request supplying the fractional offset logoY=1.6. -/
def reqFrac : RawRequest := ⟨true, "logo.png", none, none, some (8/5), none⟩

/-- Publish run in which both uploads observe the same Date.now()
millisecond value and both succeed. -/
def samePenv : PublishEnv :=
  ⟨true, 0, 1712, 1712, Except.ok "https://res.example/a.jpg",
    Except.ok "https://res.example/b.jpg"⟩

/-- Request whose uploaded logo file is itself named mockup.jpg, the same
suggested name the handler gives the rendered mockup. -/
def mockupNamedReq : RawRequest := ⟨true, "mockup.jpg", none, none, none, none⟩

/-- Request with an attached logo file and arbitrary body fields. -/
def mkReq (f : String) (c : Option String) (x y : Option ℚ) (w : Option ℤ) : RawRequest :=
  ⟨true, f, c, x, y, w⟩

/-- Fuel-free decimal rendering of a natural number; proved below to agree
with what Nat.repr produces. -/
def decRepr (n : ℕ) : List Char :=
  if n < 10 then [Nat.digitChar n]
  else decRepr (n / 10) ++ [Nat.digitChar (n % 10)]
decreasing_by exact Nat.div_lt_self (by omega) (by omega)

theorem decRepr_eq (n : ℕ) :
    decRepr n = if n < 10 then [Nat.digitChar n]
      else decRepr (n / 10) ++ [Nat.digitChar (n % 10)] := by
  rw [decRepr]

theorem decRepr_length_pos (n : ℕ) : 0 < (decRepr n).length := by
  rw [decRepr_eq]
  split <;> simp

theorem digitChar_inj_lt : ∀ a b : Fin 10,
    Nat.digitChar a = Nat.digitChar b → a = b := by decide

theorem decRepr_injective : ∀ m n : ℕ, decRepr m = decRepr n → m = n := by
  intro m
  induction m using Nat.strong_induction_on with
  | _ m ih =>
    intro n h
    by_cases hm : m < 10 <;> by_cases hn : n < 10
    · rw [decRepr_eq m, if_pos hm, decRepr_eq n, if_pos hn] at h
      have := digitChar_inj_lt ⟨m, hm⟩ ⟨n, hn⟩ (by simpa using h)
      simpa using this
    · exfalso
      rw [decRepr_eq m, if_pos hm, decRepr_eq n, if_neg hn] at h
      have hl := congrArg List.length h
      simp only [List.length_append, List.length_cons, List.length_nil] at hl
      have := decRepr_length_pos (n / 10)
      omega
    · exfalso
      rw [decRepr_eq m, if_neg hm, decRepr_eq n, if_pos hn] at h
      have hl := congrArg List.length h
      simp only [List.length_append, List.length_cons, List.length_nil] at hl
      have := decRepr_length_pos (m / 10)
      omega
    · rw [decRepr_eq m, if_neg hm, decRepr_eq n, if_neg hn] at h
      have hp := List.append_inj' h (by simp)
      have h1 : m / 10 = n / 10 :=
        ih (m / 10) (Nat.div_lt_self (by omega) (by omega)) _ hp.1
      have h2 : m % 10 = n % 10 := by
        have hc : Nat.digitChar (m % 10) = Nat.digitChar (n % 10) := by
          simpa using hp.2
        have := digitChar_inj_lt ⟨m % 10, Nat.mod_lt _ (by omega)⟩
          ⟨n % 10, Nat.mod_lt _ (by omega)⟩ hc
        simpa using this
      omega

theorem toDigitsCore_eq_decRepr :
    ∀ (f n : ℕ) (acc : List Char), n < f →
      Nat.toDigitsCore 10 f n acc = decRepr n ++ acc := by
  intro f
  induction f with
  | zero => intro n acc h; omega
  | succ f ihf =>
    intro n acc h
    by_cases hn : n < 10
    · have h0 : n / 10 = 0 := Nat.div_eq_of_lt hn
      simp only [Nat.toDigitsCore, h0, if_true]
      rw [decRepr_eq, if_pos hn, Nat.mod_eq_of_lt hn]
      simp
    · have h0 : ¬ n / 10 = 0 := by
        intro hc
        have h2 : n % 10 < 10 := Nat.mod_lt _ (by omega)
        have := Nat.div_add_mod n 10
        omega
      simp only [Nat.toDigitsCore, h0, if_false]
      have hlt : n / 10 < f := by
        have : n / 10 < n := Nat.div_lt_self (by omega) (by omega)
        omega
      rw [ihf (n / 10) (Nat.digitChar (n % 10) :: acc) hlt]
      rw [decRepr_eq n, if_neg hn]
      simp

theorem natRepr_injective (m n : ℕ) (h : Nat.repr m = Nat.repr n) : m = n := by
  have hm := toDigitsCore_eq_decRepr (m + 1) m [] (by omega)
  have hn := toDigitsCore_eq_decRepr (n + 1) n [] (by omega)
  apply decRepr_injective
  have hdata := congrArg String.data h
  simp only [Nat.repr, Nat.toDigits, List.asString] at hdata
  rw [hm, hn] at hdata
  simpa using hdata

/-- Rounding a rational moves it by at most a half pixel. -/
theorem jsRound_abs_sub_le (q : ℚ) : |(jsRound q : ℚ) - q| ≤ 1/2 := by
  have h1 : ((⌊q + 1/2⌋ : ℤ) : ℚ) ≤ q + 1/2 := Int.floor_le (q + 1/2)
  have h2 : q + 1/2 < (⌊q + 1/2⌋ : ℤ) + 1 := Int.lt_floor_add_one (q + 1/2)
  rw [jsRound, abs_le]
  constructor <;> push_cast at h2 ⊢ <;> linarith

/-- Helper: jsRound lands within one pixel of any expression equal to its
argument. -/
theorem jsRound_close (q t : ℚ) (ht : t = q) : |(jsRound q : ℚ) - t| ≤ 1 := by
  rw [ht]
  have := jsRound_abs_sub_le q
  linarith [abs_nonneg ((jsRound q : ℚ) - q)]

theorem jsRound_zero : jsRound 0 = 0 := by norm_num [jsRound]

theorem jsRound_seventy : jsRound ((175 : ℚ) * (0.4 : ℚ)) = 70 := by
  norm_num [jsRound]

/-- C2: for every request, the final image is flattened in strict
bottom-to-top order: clean background, then the tinted full bag with
normal blending, then the resized logo placed at (logoTop, logoLeft) with
normal blending, then the shadow overlay with multiply blending, then the
highlight overlay with screen blending; and all three endpoints send
exactly this pipeline result (generate and finalize at the Full config and
quality 95, preview at the Preview config and quality 70). -/
theorem C2_flatten_order (env : RenderEnv) (color : String) (cfg : Config)
    (q : ℕ) (f : String) (c : Option String) (x y : Option ℚ) (w : Option ℤ)
    (k t1 t2 : ℕ) (o1 o2 : Except String String) :
    (composePipeline env color cfg q).image =
      Img.composite (cleanBackgroundOf env cfg)
        [ (coloredFullBagOf env color cfg, Blend.over, unplaced),
          (resizedLogoOf cfg, Blend.over,
            ⟨some (logoTopOf env cfg), some (logoLeftOf env cfg)⟩),
          (shadowLayerOf env cfg, Blend.multiply, unplaced),
          (highlightLayerOf env cfg, Blend.screen, unplaced) ] ∧
    (generateEndpoint env (mkReq f c x y w)).response =
      HttpResponse.imageJpeg (composePipeline env (reqColor (mkReq f c x y w))
        (generateConfig (mkReq f c x y w)) 95) ∧
    (previewEndpoint env (mkReq f c x y w)).response =
      HttpResponse.imageJpeg (composePipeline env (reqColor (mkReq f c x y w))
        (previewConfig (mkReq f c x y w)) 70) ∧
    (finalizeForShopify env ⟨true, k, t1, t2, o1, o2⟩ (mkReq f c x y w)).mockupRendered =
      some (composePipeline env (reqColor (mkReq f c x y w))
        (generateConfig (mkReq f c x y w)) 95) := by
  refine ⟨rfl, rfl, rfl, ?_⟩
  cases o1 <;> cases o2 <;> rfl

/-- C3 counterexample: at a background of native size 2000 x 1001 (so the
full canvas height is 1001) and a supplied fractional logoY=1.6, the code
computes logoTop = 352, while the value claimed by the formula with the
offset rounded before the addition (s = 1.0 for the Full tier) is 353. -/
theorem C3_counterexample :
    logoTopOf envB (generateConfig reqFrac) = 352 ∧
    jsRound ((finalImageHeightOf envB (generateConfig reqFrac).finalImageWidth : ℚ) / 2 -
      (envB.resizedLogoHeight (generateConfig reqFrac).logoWidth : ℚ) / 2 +
      (jsRound (reqLogoY reqFrac * 1) : ℚ)) = 353 ∧
    logoTopOf envB (generateConfig reqFrac) ≠
      jsRound ((finalImageHeightOf envB (generateConfig reqFrac).finalImageWidth : ℚ) / 2 -
        (envB.resizedLogoHeight (generateConfig reqFrac).logoWidth : ℚ) / 2 +
        (jsRound (reqLogoY reqFrac * 1) : ℚ)) := by
  refine ⟨?_, ?_, ?_⟩ <;>
    norm_num [logoTopOf, generateConfig, envB, reqFrac, jsRound,
      finalImageHeightOf, reqLogoY, reqLogoX, reqLogoWidth, ratOrDefault,
      intOrDefault]

/-- C3 amended: in the Preview tier the placement does satisfy
logoLeft = round(W/2 - lw/2 + round(logoOffsetX * 0.4)) and likewise for
logoTop, the per-tier offset being rounded before the addition; in the
Full tier the raw unrounded offset is added instead:
logoLeft = round(W/2 - lw/2 + logoOffsetX).  Signed offsets of any size,
including ones that place the logo partially or fully off-canvas, are
accepted: the handlers still answer with the rendered JPEG. -/
theorem C3_amended_placement (env : RenderEnv) (f : String) (c : Option String)
    (x y : Option ℚ) (w : Option ℤ) :
    logoLeftOf env (previewConfig (mkReq f c x y w)) =
      jsRound (((previewConfig (mkReq f c x y w)).finalImageWidth : ℚ) / 2 -
        (env.resizedLogoWidth (previewConfig (mkReq f c x y w)).logoWidth : ℚ) / 2 +
        (jsRound (reqLogoX (mkReq f c x y w) * (0.4 : ℚ)) : ℚ)) ∧
    logoTopOf env (previewConfig (mkReq f c x y w)) =
      jsRound ((finalImageHeightOf env 800 : ℚ) / 2 -
        (env.resizedLogoHeight (previewConfig (mkReq f c x y w)).logoWidth : ℚ) / 2 +
        (jsRound (reqLogoY (mkReq f c x y w) * (0.4 : ℚ)) : ℚ)) ∧
    logoLeftOf env (generateConfig (mkReq f c x y w)) =
      jsRound (((generateConfig (mkReq f c x y w)).finalImageWidth : ℚ) / 2 -
        (env.resizedLogoWidth (reqLogoWidth (mkReq f c x y w)) : ℚ) / 2 +
        reqLogoX (mkReq f c x y w)) ∧
    logoTopOf env (generateConfig (mkReq f c x y w)) =
      jsRound ((finalImageHeightOf env 2000 : ℚ) / 2 -
        (env.resizedLogoHeight (reqLogoWidth (mkReq f c x y w)) : ℚ) / 2 +
        reqLogoY (mkReq f c x y w)) ∧
    (generateEndpoint env (mkReq f c x y w)).response =
      HttpResponse.imageJpeg (composePipeline env (reqColor (mkReq f c x y w))
        (generateConfig (mkReq f c x y w)) 95) ∧
    (previewEndpoint env (mkReq f c x y w)).response =
      HttpResponse.imageJpeg (composePipeline env (reqColor (mkReq f c x y w))
        (previewConfig (mkReq f c x y w)) 70) :=
  ⟨rfl, rfl, rfl, rfl, rfl, rfl⟩

/-- C4: the Preview config scales the (defaulted or explicit) Full-tier
logo width and both offsets by round(0.4 * value), and the Preview canvas
width is 800 while the Full canvas width is 2000. -/
theorem C4_preview_scaling (r : RawRequest) :
    (previewConfig r).logoWidth = jsRound ((0.4 : ℚ) * (reqLogoWidth r : ℚ)) ∧
    (previewConfig r).logoXOffset = (jsRound ((0.4 : ℚ) * reqLogoX r) : ℚ) ∧
    (previewConfig r).logoYOffset = (jsRound ((0.4 : ℚ) * reqLogoY r) : ℚ) ∧
    (previewConfig r).finalImageWidth = 800 ∧
    (generateConfig r).finalImageWidth = 2000 := by
  refine ⟨?_, ?_, ?_, rfl, rfl⟩ <;> simp [previewConfig, mul_comm]

/-- C1 counterexample: for the request with logoX=0 and logoY=0 on a
2000 x 2000 background with a 300px-high resized logo, the Full tier
places the logo top at 1025, while the vertically centered top would be
(2000 - 300) / 2 = 850 — off by 175 pixels, far outside the claimed 1px
rounding tolerance.  The supplied logoY=0 is falsy in JS, so the handler
replaces it with the default 175 before the placement math. -/
theorem C1_counterexample :
    logoTopOf envA (generateConfig reqCentered) = 1025 ∧
    ¬ |(logoTopOf envA (generateConfig reqCentered) : ℚ) -
        ((finalImageHeightOf envA (generateConfig reqCentered).finalImageWidth : ℚ) -
          (envA.resizedLogoHeight (generateConfig reqCentered).logoWidth : ℚ)) / 2| ≤ 1 := by
  constructor <;>
    norm_num [logoTopOf, generateConfig, envA, reqCentered, jsRound,
      finalImageHeightOf, reqLogoY, reqLogoX, reqLogoWidth, ratOrDefault,
      intOrDefault]

/-- C1 amended: for a request supplying logoX=0 and logoY=0, in both tiers
the logo bounding box is horizontally centered within one pixel; but the
supplied logoY=0 is falsy and is replaced by the default 175, so the
vertical position is the centered position shifted down by 175 pixels in
the Full tier and by round(175 * 0.4) = 70 pixels in the Preview tier
(each within one pixel of that shifted position), not vertically
centered. -/
theorem C1_amended_centering (env : RenderEnv) (f : String) (c : Option String)
    (w : Option ℤ) :
    |(logoLeftOf env (generateConfig (centeredReq f c w)) : ℚ) -
      (((generateConfig (centeredReq f c w)).finalImageWidth : ℚ) -
        (env.resizedLogoWidth (generateConfig (centeredReq f c w)).logoWidth : ℚ)) / 2| ≤ 1 ∧
    |(logoLeftOf env (previewConfig (centeredReq f c w)) : ℚ) -
      (((previewConfig (centeredReq f c w)).finalImageWidth : ℚ) -
        (env.resizedLogoWidth (previewConfig (centeredReq f c w)).logoWidth : ℚ)) / 2| ≤ 1 ∧
    |(logoTopOf env (generateConfig (centeredReq f c w)) : ℚ) -
      (((finalImageHeightOf env (generateConfig (centeredReq f c w)).finalImageWidth : ℚ) -
        (env.resizedLogoHeight (generateConfig (centeredReq f c w)).logoWidth : ℚ)) / 2 +
        175)| ≤ 1 ∧
    |(logoTopOf env (previewConfig (centeredReq f c w)) : ℚ) -
      (((finalImageHeightOf env (previewConfig (centeredReq f c w)).finalImageWidth : ℚ) -
        (env.resizedLogoHeight (previewConfig (centeredReq f c w)).logoWidth : ℚ)) / 2 +
        70)| ≤ 1 := by
  have hx : reqLogoX (centeredReq f c w) = 0 := by
    simp [reqLogoX, centeredReq, ratOrDefault]
  have hy : reqLogoY (centeredReq f c w) = 175 := by
    simp [reqLogoY, centeredReq, ratOrDefault]
  refine ⟨?_, ?_, ?_, ?_⟩
  · simp only [logoLeftOf, generateConfig, hx]
    exact jsRound_close _ _ (by ring)
  · simp only [logoLeftOf, previewConfig, hx, zero_mul, jsRound_zero]
    exact jsRound_close _ _ (by push_cast; ring)
  · simp only [logoTopOf, generateConfig, hy]
    exact jsRound_close _ _ (by ring)
  · simp only [logoTopOf, previewConfig, hy, jsRound_seventy]
    exact jsRound_close _ _ (by push_cast; ring)

/-- C5: for every request carrying a logo file, the Full-tier output of
generate (also rendered and uploaded by finalize-for-shopify) is a JPEG of
pixel width 2000 encoded at quality 95, the Preview output is a JPEG of
pixel width 800 encoded at quality 70, and in both tiers the output pixel
height is round(backgroundNativeHeight * finalImageWidth /
backgroundNativeWidth), preserving the background aspect ratio. -/
theorem C5_output_encoding (env : RenderEnv) (f : String) (c : Option String)
    (x y : Option ℚ) (w : Option ℤ) (k t1 t2 : ℕ) (o1 o2 : Except String String) :
    (generateEndpoint env (mkReq f c x y w)).response =
      HttpResponse.imageJpeg (composePipeline env (reqColor (mkReq f c x y w))
        (generateConfig (mkReq f c x y w)) 95) ∧
    (composePipeline env (reqColor (mkReq f c x y w))
        (generateConfig (mkReq f c x y w)) 95).format = "jpeg" ∧
    (composePipeline env (reqColor (mkReq f c x y w))
        (generateConfig (mkReq f c x y w)) 95).quality = 95 ∧
    ((composePipeline env (reqColor (mkReq f c x y w))
        (generateConfig (mkReq f c x y w)) 95).image.outWidth env = 2000) ∧
    ((composePipeline env (reqColor (mkReq f c x y w))
        (generateConfig (mkReq f c x y w)) 95).image.outHeight env =
      jsRound ((env.assetNativeHeight "assets/background.png" : ℚ) * 2000 /
        (env.assetNativeWidth "assets/background.png" : ℚ))) ∧
    (previewEndpoint env (mkReq f c x y w)).response =
      HttpResponse.imageJpeg (composePipeline env (reqColor (mkReq f c x y w))
        (previewConfig (mkReq f c x y w)) 70) ∧
    (composePipeline env (reqColor (mkReq f c x y w))
        (previewConfig (mkReq f c x y w)) 70).format = "jpeg" ∧
    (composePipeline env (reqColor (mkReq f c x y w))
        (previewConfig (mkReq f c x y w)) 70).quality = 70 ∧
    ((composePipeline env (reqColor (mkReq f c x y w))
        (previewConfig (mkReq f c x y w)) 70).image.outWidth env = 800) ∧
    ((composePipeline env (reqColor (mkReq f c x y w))
        (previewConfig (mkReq f c x y w)) 70).image.outHeight env =
      jsRound ((env.assetNativeHeight "assets/background.png" : ℚ) * 800 /
        (env.assetNativeWidth "assets/background.png" : ℚ))) ∧
    (finalizeForShopify env ⟨true, k, t1, t2, o1, o2⟩ (mkReq f c x y w)).mockupRendered =
      some (composePipeline env (reqColor (mkReq f c x y w))
        (generateConfig (mkReq f c x y w)) 95) := by
  refine ⟨rfl, rfl, rfl, rfl, ?_, rfl, rfl, rfl, rfl, ?_, ?_⟩
  · show finalImageHeightOf env 2000 = _
    rw [finalImageHeightOf]
    exact congrArg jsRound (by push_cast; ring)
  · show finalImageHeightOf env 800 = _
    rw [finalImageHeightOf]
    exact congrArg jsRound (by push_cast; ring)
  · cases o1 <;> cases o2 <;> rfl

/-- C6: a request omitting color, logoX, logoY and logoWidth entirely
produces exactly the same endpoint result as a request explicitly
supplying color=#FFFFFF, logoX=0, logoY=175, logoWidth=450, for each of
the three endpoints. -/
theorem C6_default_equivalence (env : RenderEnv) (f : String)
    (rOk : Bool) (k t1 t2 : ℕ) (o1 o2 : Except String String) :
    generateEndpoint env (mkReq f none none none none) =
      generateEndpoint env (mkReq f (some "#FFFFFF") (some 0) (some 175) (some 450)) ∧
    previewEndpoint env (mkReq f none none none none) =
      previewEndpoint env (mkReq f (some "#FFFFFF") (some 0) (some 175) (some 450)) ∧
    finalizeForShopify env ⟨rOk, k, t1, t2, o1, o2⟩ (mkReq f none none none none) =
      finalizeForShopify env ⟨rOk, k, t1, t2, o1, o2⟩
        (mkReq f (some "#FFFFFF") (some 0) (some 175) (some 450)) := by
  refine ⟨rfl, rfl, ?_⟩
  cases rOk <;> cases o1 <;> cases o2 <;> rfl

/-- C7: in the publish use-case, a compositing failure answers 500 with no
upload attempted; if either of the two uploads fails the whole operation
answers 500, so the response never carries partial URLs (the jsonUrls
response shape only occurs when both uploads succeed); and a completed
upload stays completed when the other fails (no rollback). -/
theorem C7_publish_failure_atomicity (env : RenderEnv) (f : String)
    (c : Option String) (x y : Option ℚ) (w : Option ℤ) (k t1 t2 : ℕ)
    (o1 o2 : Except String String) (u1 u2 e1 e2 : String) :
    finalizeForShopify env ⟨false, k, t1, t2, o1, o2⟩ (mkReq f c x y w) =
      { response := HttpResponse.serverError
          "An error occurred while preparing your design for the cart."
        uploadsAttempted := []
        uploadsCompleted := []
        rasterEngineCalls := k
        mockupRendered := none } ∧
    (finalizeForShopify env ⟨true, k, t1, t2, Except.error e1, Except.ok u2⟩
        (mkReq f c x y w)).response =
      HttpResponse.serverError
        "An error occurred while preparing your design for the cart." ∧
    (finalizeForShopify env ⟨true, k, t1, t2, Except.error e1, Except.ok u2⟩
        (mkReq f c x y w)).uploadsCompleted = [storageId ⟨t2, f⟩] ∧
    (finalizeForShopify env ⟨true, k, t1, t2, Except.ok u1, Except.error e2⟩
        (mkReq f c x y w)).response =
      HttpResponse.serverError
        "An error occurred while preparing your design for the cart." ∧
    (finalizeForShopify env ⟨true, k, t1, t2, Except.ok u1, Except.error e2⟩
        (mkReq f c x y w)).uploadsCompleted = [storageId ⟨t1, "mockup.jpg"⟩] ∧
    (finalizeForShopify env ⟨true, k, t1, t2, Except.error e1, Except.error e2⟩
        (mkReq f c x y w)).response =
      HttpResponse.serverError
        "An error occurred while preparing your design for the cart." ∧
    (finalizeForShopify env ⟨true, k, t1, t2, Except.error e1, Except.error e2⟩
        (mkReq f c x y w)).uploadsCompleted = [] ∧
    (finalizeForShopify env ⟨true, k, t1, t2, Except.ok u1, Except.ok u2⟩
        (mkReq f c x y w)).response =
      HttpResponse.jsonUrls u1 u2 (reqColor (mkReq f c x y w))
        (reqLogoX (mkReq f c x y w)) (reqLogoY (mkReq f c x y w))
        (reqLogoWidth (mkReq f c x y w)) ∧
    (finalizeForShopify env ⟨true, k, t1, t2, Except.error e1, Except.ok u2⟩
        (mkReq f c x y w)).uploadsAttempted =
      [storageId ⟨t1, "mockup.jpg"⟩, storageId ⟨t2, f⟩] :=
  ⟨rfl, rfl, rfl, rfl, rfl, rfl, rfl, rfl, rfl⟩

/-- C8: a request with no attached logo file makes each of the three
endpoints answer 400 with zero sharp pipeline invocations and zero upload
calls. -/
theorem C8_missing_file_guard (env : RenderEnv) (rOk : Bool) (k t1 t2 : ℕ)
    (o1 o2 : Except String String) (f : String) (c : Option String)
    (x y : Option ℚ) (w : Option ℤ) :
    generateEndpoint env ⟨false, f, c, x, y, w⟩ =
      { response := HttpResponse.badRequest "No logo file was uploaded."
        uploadsAttempted := []
        uploadsCompleted := []
        rasterEngineCalls := 0
        mockupRendered := none } ∧
    (generateEndpoint env ⟨false, f, c, x, y, w⟩).response.status = 400 ∧
    previewEndpoint env ⟨false, f, c, x, y, w⟩ =
      { response := HttpResponse.badRequest "No logo file was uploaded."
        uploadsAttempted := []
        uploadsCompleted := []
        rasterEngineCalls := 0
        mockupRendered := none } ∧
    (previewEndpoint env ⟨false, f, c, x, y, w⟩).response.status = 400 ∧
    finalizeForShopify env ⟨rOk, k, t1, t2, o1, o2⟩ ⟨false, f, c, x, y, w⟩ =
      { response := HttpResponse.badRequest "No logo file was uploaded."
        uploadsAttempted := []
        uploadsCompleted := []
        rasterEngineCalls := 0
        mockupRendered := none } ∧
    (finalizeForShopify env ⟨rOk, k, t1, t2, o1, o2⟩
      ⟨false, f, c, x, y, w⟩).response.status = 400 :=
  ⟨rfl, rfl, rfl, rfl, rfl, rfl⟩

/-- C9 counterexample: a finalize-for-shopify run whose uploaded logo file
is itself named mockup.jpg and whose two concurrent uploads observe the
same Date.now() millisecond value issues two upload calls with the same
suggested name mockup.jpg and the identical storage identifier
1712-mockup, so the second overwrites the first — refuting the claim that
two calls with the same suggested name never overwrite each other. -/
theorem C9_counterexample :
    (finalizeForShopify envA samePenv mockupNamedReq).uploadsAttempted =
      ["1712-mockup", "1712-mockup"] ∧
    ¬ (finalizeForShopify envA samePenv mockupNamedReq).uploadsAttempted.Nodup := by
  have h : (finalizeForShopify envA samePenv mockupNamedReq).uploadsAttempted =
      ["1712-mockup", "1712-mockup"] := rfl
  refine ⟨h, ?_⟩
  rw [h]
  decide

/-- C9 amended: the storage identifier of an upload call is the observed
Date.now() millisecond value, a hyphen, and the base name (sans extension)
of the suggested name; two calls with the same suggested name receive
distinct identifiers exactly when their Date.now() values differ.  Two
calls landing in the same millisecond (as the two concurrent uploads of
one finalize request can) receive the identical identifier and therefore
overwrite each other. -/
theorem C9_amended_storage_id (c1 c2 : UploadCall)
    (h : c1.suggestedName = c2.suggestedName) :
    storageId c1 = storageId c2 ↔ c1.atMillis = c2.atMillis := by
  constructor
  · intro he
    simp only [storageId, h] at he
    have hd := congrArg String.data he
    simp only [String.data_append] at hd
    have h1 := (List.append_inj' hd rfl).1
    have h2 := (List.append_inj' h1 rfl).1
    exact natRepr_injective _ _ (String.ext h2)
  · intro ht
    simp only [storageId, h, ht]

/-- C9 witness: two calls with the same suggested name at distinct
millisecond values receive distinct storage identifiers. -/
theorem C9_amended_storage_id_witness :
    storageId ⟨1712, "logo.png"⟩ ≠ storageId ⟨1713, "logo.png"⟩ := by
  intro h
  have := (C9_amended_storage_id ⟨1712, "logo.png"⟩ ⟨1713, "logo.png"⟩ rfl).mp h
  exact absurd this (by decide)

/-- C10: defaulting is decided by JS falsiness of the coerced value, not
only by absence: a supplied logoY parsing to 0 becomes 175, a supplied
logoWidth parsing to 0 becomes 450, and a supplied empty-string color
becomes #FFFFFF, each producing exactly the endpoint result of the
omitted parameter, in all three endpoints. -/
theorem C10_falsiness_defaulting (env : RenderEnv) (rOk : Bool) (k t1 t2 : ℕ)
    (o1 o2 : Except String String) (f : String) (c : Option String)
    (x y : Option ℚ) (w : Option ℤ) :
    reqLogoY (mkReq f c x (some 0) w) = 175 ∧
    reqLogoWidth (mkReq f c x y (some 0)) = 450 ∧
    reqColor (mkReq f (some "") x y w) = "#FFFFFF" ∧
    generateEndpoint env (mkReq f c x (some 0) w) =
      generateEndpoint env (mkReq f c x none w) ∧
    generateEndpoint env (mkReq f c x y (some 0)) =
      generateEndpoint env (mkReq f c x y none) ∧
    generateEndpoint env (mkReq f (some "") x y w) =
      generateEndpoint env (mkReq f none x y w) ∧
    previewEndpoint env (mkReq f c x (some 0) w) =
      previewEndpoint env (mkReq f c x none w) ∧
    previewEndpoint env (mkReq f c x y (some 0)) =
      previewEndpoint env (mkReq f c x y none) ∧
    previewEndpoint env (mkReq f (some "") x y w) =
      previewEndpoint env (mkReq f none x y w) ∧
    finalizeForShopify env ⟨rOk, k, t1, t2, o1, o2⟩ (mkReq f c x (some 0) w) =
      finalizeForShopify env ⟨rOk, k, t1, t2, o1, o2⟩ (mkReq f c x none w) ∧
    finalizeForShopify env ⟨rOk, k, t1, t2, o1, o2⟩ (mkReq f c x y (some 0)) =
      finalizeForShopify env ⟨rOk, k, t1, t2, o1, o2⟩ (mkReq f c x y none) ∧
    finalizeForShopify env ⟨rOk, k, t1, t2, o1, o2⟩ (mkReq f (some "") x y w) =
      finalizeForShopify env ⟨rOk, k, t1, t2, o1, o2⟩ (mkReq f none x y w) := by
  refine ⟨rfl, rfl, rfl, rfl, rfl, rfl, rfl, rfl, rfl, ?_, ?_, ?_⟩ <;>
    (cases rOk <;> cases o1 <;> cases o2 <;> rfl)
